import Mathlib

/-!
# Verification of the promptmaster orchestration core

Shallow embedding of the client-side orchestration layer of the
promptmaster repository: the retry policy, feature-model router,
interview response parsing, classification and reconstruction fallbacks
from `services/geminiService.ts` and `types.ts`, and the editor state
machine from the `useEditorState` hook.

JavaScript strings are modelled as Lean `String`/`List Char`; JS
truthiness of strings ("" is falsy) and of optional values is modelled
explicitly; asynchronous AI calls are modelled by passing the call
outcome as an explicit parameter to the state-transition function.
-/

namespace PromptMaster

/-! ## JS string primitives -/

/-- `pat.isPrefixOf l` at every suffix: JS `String.prototype.includes`. -/
def listContains (pat : List Char) : List Char → Bool
  | [] => pat.isEmpty
  | c :: rest => pat.isPrefixOf (c :: rest) || listContains pat rest

/-- JS `s.includes(pat)`. -/
def strIncludes (s pat : String) : Bool :=
  listContains pat.data s.data

/-- The backtick character (written via its code point). -/
def backtick : Char := Char.ofNat 96

/-- The single-quote character (written via its code point). -/
def singleQuote : Char := Char.ofNat 39

/-- ECMAScript `GetSubstitution` for a plain-string search value (no
capture groups): in the replacement template `$$` yields `$`, `$&` the
matched substring, `$` + backquote the part of the subject before the
match, `$` + quote the part after it; any other `$` (including `$n` and
`$<`, which have no captures to refer to here) stays literal. -/
def getSubstitution (matched before after : List Char) : List Char → List Char
  | [] => []
  | [c] => [c]
  | c :: d :: rest =>
    if c = '$' then
      if d = '$' then '$' :: getSubstitution matched before after rest
      else if d = '&' then matched ++ getSubstitution matched before after rest
      else if d = backtick then before ++ getSubstitution matched before after rest
      else if d = singleQuote then after ++ getSubstitution matched before after rest
      else c :: getSubstitution matched before after (d :: rest)
    else c :: getSubstitution matched before after (d :: rest)

/-- Replace the first (leftmost) occurrence of `pat` (non-empty): the
replacement template is expanded by `getSubstitution` against the matched
text, the accumulated text `before` the match and the text after it; if
`pat` has no occurrence the list is returned unchanged. -/
def replaceFirstAux (pat repl : List Char) (before : List Char) :
    List Char → List Char
  | [] => []
  | c :: rest =>
    if pat.isPrefixOf (c :: rest) then
      getSubstitution pat before ((c :: rest).drop pat.length) repl
        ++ (c :: rest).drop pat.length
    else c :: replaceFirstAux pat repl (before ++ [c]) rest

/-- JS `s.replace(pat, repl)` with a plain-string pattern: replaces only
the first occurrence, applying `GetSubstitution` to the replacement
template; an empty pattern matches at position 0 with the whole string
following the match. -/
def jsReplace (s pat repl : String) : String :=
  if pat.data.isEmpty then
    ⟨getSubstitution pat.data [] s.data repl.data ++ s.data⟩
  else ⟨replaceFirstAux pat.data repl.data [] s.data⟩

/-- JS `s.trim()`: strip whitespace from both ends. -/
def jsTrim (s : String) : String :=
  ⟨((s.data.dropWhile Char.isWhitespace).reverse.dropWhile Char.isWhitespace).reverse⟩

/-- JS `s.toLowerCase()` (ASCII range, which is all the code compares). -/
def jsToLower (s : String) : String :=
  ⟨s.data.map Char.toLower⟩

/-- `decide`-friendly statement that no position in `a` (all strictly before
the distinguished occurrence) starts an occurrence of `pat` in
`a ++ pat ++ b`. -/
def noEarlierHit (a pat b : List Char) : Bool :=
  (List.range a.length).all fun i => !(pat.isPrefixOf (a.drop i ++ pat ++ b))

/-! ## `types.ts` data model -/

inductive Language where
  | zh
  | en
deriving DecidableEq, Repr

inductive Pillar where
  | Persona
  | Task
  | Context
  | Format
  | Other
deriving DecidableEq, Repr

inductive ApiProvider where
  | GoogleGemini
  | DeepSeek
  | OpenAI
  | Anthropic
  | Custom
deriving DecidableEq, Repr

/-- `CustomModel` from `types.ts` (the ModelConfig of the spec). Optional
string fields are `Option String`; JS treats both `undefined` and `""` as
falsy, which `jsTruthy` below captures. -/
structure CustomModel where
  id : String
  name : String
  provider : ApiProvider
  modelName : String
  baseUrl : Option String
  apiKey : Option String
deriving DecidableEq, Repr

inductive FeatureType where
  | Interview
  | Mentor
  | Feedback
  | Critique
  | Classify
  | Rewrite
  | ReverseEngineer
deriving DecidableEq, Repr

/-- The `models` record of `ApiConfig`: feature id → model id. -/
structure FeatureModels where
  interview : String
  mentor : String
  feedback : String
  critique : String
  classify : String
  rewrite : String
  reverseEngineer : String
deriving DecidableEq, Repr

def FeatureModels.get (m : FeatureModels) : FeatureType → String
  | FeatureType.Interview => m.interview
  | FeatureType.Mentor => m.mentor
  | FeatureType.Feedback => m.feedback
  | FeatureType.Critique => m.critique
  | FeatureType.Classify => m.classify
  | FeatureType.Rewrite => m.rewrite
  | FeatureType.ReverseEngineer => m.reverseEngineer

structure ApiConfig where
  activeProvider : ApiProvider
  geminiApiKey : String
  deepseekApiKey : String
  defaultBaseUrl : Option String
  defaultApiKey : Option String
  models : FeatureModels
  customModels : List CustomModel
deriving DecidableEq, Repr

structure AppSettings where
  api : ApiConfig
  language : Language
  theme : String
deriving DecidableEq, Repr

/-- JS truthiness of an optional string: `undefined` and `""` are falsy. -/
def jsTruthy (o : Option String) : Bool :=
  !((o.getD "") == "")

/-- The `PREDEFINED_MODELS` constant of `types.ts`. -/
def PREDEFINED_MODELS : List CustomModel :=
  [ { id := "gemini-pro", name := "Gemini Pro (深度推理)",
      provider := ApiProvider.GoogleGemini,
      modelName := "gemini-3-pro-preview", baseUrl := none, apiKey := none },
    { id := "gemini-flash", name := "Gemini Flash (快速响应)",
      provider := ApiProvider.GoogleGemini,
      modelName := "gemini-3-flash-preview", baseUrl := none, apiKey := none },
    { id := "deepseek-chat", name := "DeepSeek Chat (V3)",
      provider := ApiProvider.DeepSeek,
      modelName := "deepseek-chat",
      baseUrl := some "https://api.deepseek.com", apiKey := none },
    { id := "deepseek-reasoner", name := "DeepSeek Reasoner (R1)",
      provider := ApiProvider.DeepSeek,
      modelName := "deepseek-reasoner",
      baseUrl := some "https://api.deepseek.com", apiKey := none } ]

def getAllModels (customModels : List CustomModel) : List CustomModel :=
  PREDEFINED_MODELS ++ customModels

def getModelById (modelId : String) (customModels : List CustomModel) :
    Option CustomModel :=
  (getAllModels customModels).find? fun model => model.id == modelId

/-- `getApiKeyForModel` from `types.ts`: model key, else global default key,
else the provider-specific key. -/
def getApiKeyForModel (model : CustomModel) (settings : AppSettings) : String :=
  if jsTruthy model.apiKey then model.apiKey.getD ""
  else if jsTruthy settings.api.defaultApiKey then settings.api.defaultApiKey.getD ""
  else
    match model.provider with
    | ApiProvider.GoogleGemini => settings.api.geminiApiKey
    | ApiProvider.DeepSeek => settings.api.deepseekApiKey
    | _ => settings.api.defaultApiKey.getD ""

/-! ## `services/geminiService.ts`: retry policy -/

/-- A JS field that may hold a number, a string, or be absent. -/
inductive JsValue where
  | num (n : Int)
  | str (s : String)
  | absent
deriving DecidableEq, Repr

/-- The nested `error.error` object inspected by `callWithRetry`. -/
structure JsNested where
  code : JsValue
  status : JsValue
deriving DecidableEq, Repr

/-- The shape of a thrown JS error as far as `callWithRetry` inspects it. -/
structure JsError where
  status : JsValue
  code : JsValue
  nested : Option JsNested
  message : Option String
deriving DecidableEq, Repr

/-- The `isQuotaError` test inside `callWithRetry`, clause for clause:
`error.status === 429 || error.code === 429 ||
error.status === 'RESOURCE_EXHAUSTED' || (error.error && (...)) ||
(typeof error.message === 'string' && (includes '429' || includes 'quota'))`. -/
def isQuotaError (e : JsError) : Bool :=
  e.status == JsValue.num 429 ||
  e.code == JsValue.num 429 ||
  e.status == JsValue.str "RESOURCE_EXHAUSTED" ||
  (match e.nested with
   | some n => n.code == JsValue.num 429 || n.status == JsValue.str "RESOURCE_EXHAUSTED"
   | none => false) ||
  (match e.message with
   | some m => strIncludes m "429" || strIncludes m "quota"
   | none => false)

/-- Outcome of one attempt of the wrapped operation. -/
inductive Outcome (α : Type) where
  | ok (val : α)
  | err (e : JsError)
deriving DecidableEq, Repr

/-- `callWithRetry`, with the operation modelled as the sequence of outcomes
of its successive invocations (`f i` = outcome of attempt `i`). Returns the
final result together with the list of delays (ms) waited, in order. -/
def callWithRetryAux {α : Type} (f : Nat → Outcome α) :
    Nat → Nat → Nat → Except JsError α × List Nat
  | 0, _, i =>
    -- with no attempts left, `isQuotaError && retries > 0` is false either
    -- way and the error is rethrown unchanged
    match f i with
    | Outcome.ok v => (Except.ok v, [])
    | Outcome.err e => (Except.error e, [])
  | r + 1, delay, i =>
    match f i with
    | Outcome.ok v => (Except.ok v, [])
    | Outcome.err e =>
      if isQuotaError e then
        let rest := callWithRetryAux f r (delay * 2) (i + 1)
        (rest.1, delay :: rest.2)
      else (Except.error e, [])

/-- `callWithRetry` with its default arguments `retries = 3`,
`initialDelay = 2000`. -/
def callWithRetry {α : Type} (f : Nat → Outcome α) : Except JsError α × List Nat :=
  callWithRetryAux f 3 2000 0

/-! ## `services/geminiService.ts`: feature-model router -/

def getModelForFeature (settings : AppSettings) (feature : FeatureType) : String :=
  settings.api.models.get feature

def getModelConfigForFeature (settings : AppSettings) (feature : FeatureType) :
    Option CustomModel :=
  getModelById (getModelForFeature settings feature) settings.api.customModels

/-- The provider branch used throughout the service:
`provider === DeepSeek || provider === OpenAI || provider === Custom`. -/
def isOpenAICompatible (p : ApiProvider) : Bool :=
  p == ApiProvider.DeepSeek || p == ApiProvider.OpenAI || p == ApiProvider.Custom

/-- Outcome of one AI call as the service sees it: the response text
(`""` models an empty/undefined `response.text`, which JS treats as falsy)
or a thrown error. -/
inductive AiCall where
  | ok (text : String)
  | err (e : JsError)
deriving DecidableEq, Repr

/-! ## `classifyPromptSegment` -/

/-- The response-to-pillar mapping of `classifyPromptSegment`:
`text ? text.trim().toLowerCase() : ''` followed by the four
`includes` checks, else `Other`. -/
def classifyResponseText (text : String) : Pillar :=
  let normalized := if text == "" then "" else jsToLower (jsTrim text)
  if strIncludes normalized "persona" then Pillar.Persona
  else if strIncludes normalized "task" then Pillar.Task
  else if strIncludes normalized "context" then Pillar.Context
  else if strIncludes normalized "format" then Pillar.Format
  else Pillar.Other

/-- `classifyPromptSegment`: configuration lookup, then the call (whose
outcome is passed explicitly); a thrown call resolves to `Pillar.Other`
via the surrounding `catch`. -/
def classifyPromptSegment (settings : AppSettings) (call : AiCall) :
    Except String Pillar :=
  match getModelConfigForFeature settings FeatureType.Classify with
  | none => Except.error "Model configuration not found for feature: classify"
  | some _ =>
    Except.ok
      (match call with
       | AiCall.ok t => classifyResponseText t
       | AiCall.err _ => Pillar.Other)

/-! ## `reconstructPrompt`, full-rewrite branch -/

/-- The fallback model id used by the full-rewrite catch branch:
the first custom model whose `modelName` contains `"flash"`, else the
predefined `"gemini-flash"`. -/
def fallbackFlashModelId (settings : AppSettings) : String :=
  match settings.api.customModels.find? (fun m => strIncludes m.modelName "flash") with
  | some m => m.id
  | none => "gemini-flash"

/-- `result ? result.trim() : currentPrompt` / `response.text ? ... .trim() : currentPrompt`. -/
def textOr (t : String) (currentPrompt : String) : String :=
  if t == "" then currentPrompt else jsTrim t

/-- `reconstructPrompt` without a focus segment (full rewrite): after the
configuration lookup, the OpenAI-compatible branch makes one call and falls
back to the original prompt on error; the Gemini branch makes a primary call
and on any error retries once on the flash fallback model, returning the
original prompt if that fails too. The second component records whether the
fallback call was made. -/
def reconstructPromptFull (settings : AppSettings) (currentPrompt : String)
    (primary fallbackCall : AiCall) : Except String (String × Bool) :=
  match getModelConfigForFeature settings FeatureType.Rewrite with
  | none => Except.error "Model configuration not found for feature: rewrite"
  | some mc =>
    if isOpenAICompatible mc.provider then
      Except.ok
        (match primary with
         | AiCall.ok t => (textOr t currentPrompt, false)
         | AiCall.err _ => (currentPrompt, false))
    else
      Except.ok
        (match primary with
         | AiCall.ok t => (textOr t currentPrompt, false)
         | AiCall.err _ =>
           match fallbackCall with
           | AiCall.ok t => (textOr t currentPrompt, true)
           | AiCall.err _ => (currentPrompt, true))

/-- `reconstructPrompt` with a focus segment (partial rewrite): one call,
returning the trimmed response, or the focus segment itself when the
response is empty or the call fails. -/
def reconstructPromptPartial (settings : AppSettings) (focusSegment : String)
    (call : AiCall) : Except String String :=
  match getModelConfigForFeature settings FeatureType.Rewrite with
  | none => Except.error "Model configuration not found for feature: rewrite"
  | some _ =>
    Except.ok
      (match call with
       | AiCall.ok t => textOr t focusSegment
       | AiCall.err _ => focusSegment)

/-! ## Interview session and `sendInterviewMessage` parsing -/

/-- The `InterviewResponse` interface of `types.ts`. -/
structure InterviewResponse where
  question : String
  options : List String
  isFinalDraft : Bool
  generatedPrompt : Option String
deriving DecidableEq, Repr

/-- The fields of the parsed JSON object that `sendInterviewMessage`
reads: `question`/`Question` (absent or non-string modelled as `none`),
`options` (`some` iff `Array.isArray`), the truthiness of `isFinalDraft`,
and `generatedPrompt`. -/
structure InterviewJson where
  question : Option String
  questionCap : Option String
  options : Option (List String)
  isFinalDraft : Bool
  generatedPrompt : Option String
deriving DecidableEq, Repr

/-- One step of the global regex replace
`responseText.replace(/```json\n?|\n?```/g, '')`: at each position the
first alternative `` ```json\n? `` is tried, then `` \n?``` `` (first with
the optional newline, then without); on a match the scanner continues after
the consumed text, otherwise it keeps the character. -/
def dropNewlineChar : List Char → List Char
  | [] => []
  | c :: r => if c = '\n' then r else c :: r

def stripFences : List Char → List Char
  | [] => []
  | c :: rest =>
    if "```json".data.isPrefixOf (c :: rest) then
      stripFences (dropNewlineChar ((c :: rest).drop 7))
    else if c = '\n' && "```".data.isPrefixOf rest then
      stripFences (rest.drop 3)
    else if "```".data.isPrefixOf (c :: rest) then
      stripFences (rest.drop 2)
    else c :: stripFences rest
termination_by l => l.length
decreasing_by
  · simp only [List.length_cons]
    have h1 : (dropNewlineChar ((c :: rest).drop 7)).length ≤ ((c :: rest).drop 7).length := by
      rcases (c :: rest).drop 7 with _ | ⟨d, r⟩
      · simp [dropNewlineChar]
      · simp only [dropNewlineChar]
        split <;> simp
    have h2 : ((c :: rest).drop 7).length = (c :: rest).length - 7 := List.length_drop 7 _
    simp only [List.length_cons] at h2
    omega
  · simp only [List.length_cons]
    have : (rest.drop 3).length = rest.length - 3 := List.length_drop 3 rest
    omega
  · simp only [List.length_cons]
    have : (rest.drop 2).length = rest.length - 2 := List.length_drop 2 rest
    omega
  · simp

/-- The sentinel returned when `JSON.parse` fails inside
`sendInterviewMessage`. -/
def parseErrorSentinel : InterviewResponse :=
  { question := "System Error: Could not parse AI response. Please try again.",
    options := [], isFinalDraft := false, generatedPrompt := none }

/-- The response-handling tail of `sendInterviewMessage`: strip markdown
fences, trim, `JSON.parse` (modelled as an explicit partial parse oracle),
then either the normalised structure (`question || Question || "..."`,
`options.slice(0, 3)`, `!!isFinalDraft`, `generatedPrompt` passed through)
or the parse-error sentinel. -/
def parseInterviewResponse (parse : String → Option InterviewJson)
    (responseText : String) : InterviewResponse :=
  let cleanJson := jsTrim ⟨stripFences responseText.data⟩
  match parse cleanJson with
  | some json =>
    { question :=
        if jsTruthy json.question then json.question.getD ""
        else if jsTruthy json.questionCap then json.questionCap.getD ""
        else "...",
      options := (json.options.getD []).take 3,
      isFinalDraft := json.isFinalDraft,
      generatedPrompt := json.generatedPrompt }
  | none => parseErrorSentinel

/-- The fenced wrapping whose stripping claim C5 is about. -/
def wrapJsonFence (t : String) : String :=
  "```json\n" ++ t ++ "\n```"

/-- A string with no backtick character (so the fence regex can only match
the added fences, not anything inside the body). -/
def noBacktickIn (t : String) : Bool :=
  !(t.data.contains backtick)

/-- The session value built by `startInterviewSession`: either the local
OpenAI-style history list or a Gemini chat handle (identified by its model
name); the large system-instruction text plays no role in the verified
claims and is not carried. -/
inductive InterviewSession where
  | openAIHistory (modelName : String)
  | geminiChat (modelName : String)
deriving DecidableEq, Repr

/-- `startInterviewSession`: throws
`Model configuration not found for feature: interview` before any client
or session is created when the feature's model id matches no model. -/
def startInterviewSession (settings : AppSettings) :
    Except String InterviewSession :=
  match getModelConfigForFeature settings FeatureType.Interview with
  | none => Except.error "Model configuration not found for feature: interview"
  | some mc =>
    if isOpenAICompatible mc.provider then
      Except.ok (InterviewSession.openAIHistory mc.modelName)
    else
      Except.ok (InterviewSession.geminiChat mc.modelName)

/-! ## The editor state machine (`useEditorState` hook) -/

/-- The `Suggestion` interface of `types.ts` (the `type` field is one of
four literals; a plain string keeps the embedding simple and faithful). -/
structure Suggestion where
  id : String
  originalText : String
  suggestedText : String
  reason : String
  type : String
deriving DecidableEq, Repr

structure LockedSegment where
  id : String
  text : String
  pillar : Option Pillar
deriving DecidableEq, Repr

inductive ProcType where
  | scan
  | reconstruct
  | applyFeedback
deriving DecidableEq, Repr

/-- The state owned by `useEditorState`. -/
structure EditorState where
  prompt : String
  suggestions : List Suggestion
  activeSuggestionId : Option String
  feedback : String
  isTyping : Bool
  isProcessing : Bool
  processingType : Option ProcType
  processingSelection : Option (Nat × Nat)
  ignoredFeedbackHistory : List String
  lastPromptBeforeApply : Option String
  showUndo : Bool
  lockedSegments : List LockedSegment
  lastFeedbackPrompt : String
deriving DecidableEq, Repr

/-- A rest state of the hook used as a base for concrete test states. -/
def baseState : EditorState :=
  { prompt := "", suggestions := [], activeSuggestionId := none,
    feedback := "", isTyping := false, isProcessing := false,
    processingType := none, processingSelection := none,
    ignoredFeedbackHistory := [], lastPromptBeforeApply := none,
    showUndo := false, lockedSegments := [], lastFeedbackPrompt := "" }

/-- `updatePrompt`: manual edit; clears the undo snapshot only when
`showUndo` is currently set. -/
def updatePrompt (newPrompt : String) (s : EditorState) : EditorState :=
  if s.showUndo then
    { s with prompt := newPrompt, showUndo := false, lastPromptBeforeApply := none }
  else
    { s with prompt := newPrompt }

/-- The validation filter of `handleDeepScan`:
`s.filter(sugg => promptRef.current.includes(sugg.originalText))`, where
`doc` is the document at the moment the response is handled. -/
def deepScanFilter (result : List Suggestion) (doc : String) : List Suggestion :=
  result.filter fun sugg => strIncludes doc sugg.originalText

/-- The response-handling tail of `handleDeepScan` run against state `s`
at the moment the critique result arrives (so `s.prompt` is
`promptRef.current`): store the filtered suggestions and clear the
processing flag. -/
def deepScanFinish (result : List Suggestion) (s : EditorState) : EditorState :=
  { s with suggestions := deepScanFilter result s.prompt,
           isProcessing := false, processingType := none }

/-- `handleDeepScan` as one step (no interleaved edits): gated on
`isProcessing`; `result = none` models the critique call throwing (caught,
leaving the cleared suggestion list). -/
def handleDeepScan (result : Option (List Suggestion)) (s : EditorState) :
    EditorState :=
  if s.isProcessing then s
  else
    let s1 := { s with isProcessing := true, processingType := some ProcType.scan,
                       suggestions := [], showUndo := false }
    let s2 :=
      match result with
      | some r => { s1 with suggestions := deepScanFilter r s1.prompt }
      | none => s1
    { s2 with isProcessing := false, processingType := none }

/-- `applySuggestion`: replace the first occurrence of `originalText` by
`suggestedText` and drop the suggestion (by id) from the list. -/
def applySuggestion (sugg : Suggestion) (s : EditorState) : EditorState :=
  { s with prompt := jsReplace s.prompt sugg.originalText sugg.suggestedText,
           suggestions := s.suggestions.filter fun x => !(x.id == sugg.id),
           activeSuggestionId := none }

/-- `dismissSuggestion`. -/
def dismissSuggestion (id : String) (s : EditorState) : EditorState :=
  { s with suggestions := s.suggestions.filter fun x => !(x.id == id),
           activeSuggestionId := none }

/-- `handleApplyFeedback` as one step: gated on
`!feedback || isProcessing`; the snapshot is taken before the call, so it
is written even when the call throws (`result = none`). -/
def handleApplyFeedback (result : Option String) (s : EditorState) :
    EditorState :=
  if s.feedback == "" || s.isProcessing then s
  else
    let s1 := { s with lastPromptBeforeApply := some s.prompt,
                       isProcessing := true,
                       processingType := some ProcType.applyFeedback }
    let s2 :=
      match result with
      | some newPrompt =>
        { s1 with prompt := newPrompt, suggestions := [], showUndo := true }
      | none => s1
    { s2 with isProcessing := false, processingType := none }

/-- `handleUndo`: `if (lastPromptBeforeApply)` — a missing snapshot and an
empty-string snapshot (JS falsy) are both no-ops. -/
def handleUndo (s : EditorState) : EditorState :=
  match s.lastPromptBeforeApply with
  | some p =>
    if p == "" then s
    else { s with prompt := p, showUndo := false, lastPromptBeforeApply := none }
  | none => s

/-- `handleGlobalReconstruct` as one step: note there is no
`isProcessing` gate; `result = none` models the rewrite call throwing. -/
def handleGlobalReconstruct (result : Option String) (s : EditorState) :
    EditorState :=
  let s1 := { s with isProcessing := true,
                     processingType := some ProcType.reconstruct,
                     processingSelection := none, showUndo := false }
  let s2 :=
    match result with
    | some r => { s1 with prompt := r, suggestions := [] }
    | none => s1
  { s2 with isProcessing := false, processingType := none }

/-- `handlePartialReconstruct` as one step (selection `start`/`stop` in
character positions): also ungated; the rewritten segment is spliced back
with `prompt.substring(0, start) + segment + prompt.substring(end)`. -/
def handlePartialReconstruct (start stop : Nat) (result : Option String)
    (s : EditorState) : EditorState :=
  let s1 := { s with processingSelection := some (start, stop),
                     isProcessing := true,
                     processingType := some ProcType.reconstruct,
                     showUndo := false }
  let s2 :=
    match result with
    | some seg =>
      { s1 with prompt := ⟨s1.prompt.data.take start ++ seg.data ++ s1.prompt.data.drop stop⟩ }
    | none => s1
  { s2 with isProcessing := false, processingType := none,
            processingSelection := none }

/-! ## Concrete sample data for witnesses and counterexamples -/

def sampleModels (id : String) : FeatureModels :=
  { interview := id, mentor := id, feedback := id, critique := id,
    classify := id, rewrite := id, reverseEngineer := id }

def sampleSettings : AppSettings :=
  { api := { activeProvider := ApiProvider.GoogleGemini,
             geminiApiKey := "provKey", deepseekApiKey := "dsKey",
             defaultBaseUrl := none, defaultApiKey := some "defKey",
             models := sampleModels "gemini-pro", customModels := [] },
    language := Language.en, theme := "light" }

def missingModelSettings : AppSettings :=
  { sampleSettings with
    api := { sampleSettings.api with models := sampleModels "missing-model" } }

def sampleKeyedModel : CustomModel :=
  { id := "m1", name := "My Model", provider := ApiProvider.GoogleGemini,
    modelName := "gemini-3-pro-preview", baseUrl := none,
    apiKey := some "modelKey" }

/-- A state in which a scan is in flight. -/
def busyScanState : EditorState :=
  { baseState with
    prompt := "p", isProcessing := true, processingType := some ProcType.scan }

/-- A state in which a reconstruction is in flight. -/
def busyReconState : EditorState :=
  { baseState with
    prompt := "p", isProcessing := true,
    processingType := some ProcType.reconstruct }

/-- A Busy state that also carries a mentor tip. -/
def busyTipReconState : EditorState :=
  { baseState with
    prompt := "p", feedback := "tip", isProcessing := true,
    processingType := some ProcType.reconstruct }

/-- An idle state with an empty document and a mentor tip. -/
def emptyPromptTipState : EditorState :=
  { baseState with prompt := "", feedback := "tip" }

/-- An idle state with document "p0" and a mentor tip. -/
def p0TipState : EditorState :=
  { baseState with prompt := "p0", feedback := "tip" }

/-- An idle state in which undo is currently offered. -/
def undoReadyState : EditorState :=
  { baseState with
    prompt := "p0", showUndo := true, lastPromptBeforeApply := some "q" }

/-- An idle state whose document contains "ab" twice. -/
def abAbState : EditorState := { baseState with prompt := "ab ab" }

/-- A suggestion whose replacement text uses the `$&` substitution
pattern of `String.prototype.replace`. -/
def dollarAmpSuggestion : Suggestion :=
  { id := "s1", originalText := "ab", suggestedText := "$&$&",
    reason := "", type := "clarity" }

/-- A suggestion whose replacement text uses the `$$` substitution
pattern of `String.prototype.replace`. -/
def dollarDollarSuggestion : Suggestion :=
  { id := "s2", originalText := "ab", suggestedText := "$$",
    reason := "", type := "clarity" }

/-! ## Helper lemmas -/

theorem isPrefixOf_head {p c : Char} {ps l : List Char}
    (h : (p :: ps).isPrefixOf (c :: l) = true) : p = c := by
  simp [List.isPrefixOf] at h
  exact h.1

theorem fence3_prefix_false {c : Char} {l : List Char} (h : c ≠ backtick) :
    ("```".data.isPrefixOf (c :: l)) = false := by
  apply Bool.eq_false_iff.mpr
  intro htrue
  have hd : "```".data = backtick :: "``".data := by decide
  rw [hd] at htrue
  exact h (isPrefixOf_head htrue).symm

theorem fenceJson_prefix_false {c : Char} {l : List Char} (h : c ≠ backtick) :
    ("```json".data.isPrefixOf (c :: l)) = false := by
  apply Bool.eq_false_iff.mpr
  intro htrue
  have hd : "```json".data = backtick :: "``json".data := by decide
  rw [hd] at htrue
  exact h (isPrefixOf_head htrue).symm

theorem fence3_prefix_false_of_all {l : List Char} (h : ∀ c ∈ l, c ≠ backtick) :
    ("```".data.isPrefixOf l) = false := by
  cases l with
  | nil => decide
  | cons c r => exact fence3_prefix_false (h c (by simp))

/-- Scanning a backtick-free list leaves it unchanged. -/
theorem stripFences_no_tick (t : List Char) (h : ∀ c ∈ t, c ≠ backtick) :
    stripFences t = t := by
  induction t with
  | nil => simp [stripFences]
  | cons c rest ih =>
    have hc : c ≠ backtick := h c (by simp)
    have hrest : ∀ d ∈ rest, d ≠ backtick := fun d hd => h d (by simp [hd])
    rw [stripFences]
    simp only [fenceJson_prefix_false hc, fence3_prefix_false hc,
      fence3_prefix_false_of_all hrest,
      Bool.and_false, Bool.false_eq_true, if_false]
    exact congrArg (c :: ·) (ih hrest)

theorem no_tick_of_noBacktickIn {t : String} (h : noBacktickIn t = true) :
    ∀ c ∈ t.data, c ≠ backtick := by
  intro c hc hEq
  simp only [noBacktickIn, Bool.not_eq_true'] at h
  rw [hEq] at hc
  have : t.data.contains backtick = true := List.elem_eq_true_of_mem hc
  rw [h] at this
  exact Bool.false_ne_true this

/-- Scanning the body followed by the closing fence: the body survives,
the closing `\n` + three backticks are consumed. -/
theorem stripFences_body_close (t : List Char) (h : ∀ c ∈ t, c ≠ backtick) :
    stripFences (t ++ "\n```".data) = t := by
  induction t with
  | nil =>
    simp [stripFences]
  | cons c rest ih =>
    have hc : c ≠ backtick := h c (by simp)
    have hrest : ∀ d ∈ rest, d ≠ backtick := fun d hd => h d (by simp [hd])
    have hcond2 : ("```".data.isPrefixOf (rest ++ "\n```".data)) = false := by
      cases rest with
      | nil =>
        rw [show ([] : List Char) ++ "\n```".data = '\n' :: "```".data from by decide]
        exact fence3_prefix_false (by decide)
      | cons d r =>
        rw [List.cons_append]
        exact fence3_prefix_false (hrest d (by simp))
    rw [List.cons_append, stripFences]
    simp only [fenceJson_prefix_false hc, fence3_prefix_false hc, hcond2,
      Bool.and_false, Bool.false_eq_true, if_false]
    exact congrArg (c :: ·) (ih hrest)

theorem wrap_data (t : String) :
    (wrapJsonFence t).data =
      "```json".data ++ ('\n' :: (t.data ++ "\n```".data)) := by
  simp [wrapJsonFence, String.data_append,
    show "```json\n".data = "```json".data ++ ['\n'] from by decide]

/-- Stripping a backtick-free body wrapped in a fenced `json` code block
recovers exactly the body. -/
theorem stripFences_wrap (t : String) (h : noBacktickIn t = true) :
    stripFences (wrapJsonFence t).data = t.data := by
  have hno := no_tick_of_noBacktickIn h
  have hsplit : "```json".data = backtick :: "``json".data := by decide
  rw [wrap_data, hsplit, List.cons_append, stripFences]
  have hpre : ("```json".data.isPrefixOf
      (backtick :: ("``json".data ++ ('\n' :: (t.data ++ "\n```".data))))) = true := by
    rw [← List.cons_append, ← hsplit]
    exact List.isPrefixOf_iff_prefix.mpr (List.prefix_append _ _)
  rw [if_pos hpre]
  rw [← List.cons_append, ← hsplit]
  rw [show ("```json".data ++ ('\n' :: (t.data ++ "\n```".data))).drop 7
        = '\n' :: (t.data ++ "\n```".data) from by
    have := List.drop_left "```json".data ('\n' :: (t.data ++ "\n```".data))
    rw [show ("```json".data).length = 7 from by decide] at this
    exact this]
  simp only [dropNewlineChar, if_pos rfl]
  exact stripFences_body_close t.data hno

theorem noEarlierHit_cons {c : Char} {a pat b : List Char}
    (h : noEarlierHit (c :: a) pat b = true) :
    (pat.isPrefixOf (c :: (a ++ pat ++ b))) = false ∧ noEarlierHit a pat b = true := by
  simp only [noEarlierHit, List.all_eq_true] at h
  constructor
  · have h0 := h 0 (List.mem_range.mpr (Nat.succ_pos _))
    simp only [List.drop_zero, List.cons_append, Bool.not_eq_true'] at h0
    simpa using h0
  · simp only [noEarlierHit, List.all_eq_true]
    intro i hi
    have hmem : i + 1 ∈ List.range (c :: a).length := by
      rw [List.length_cons]
      exact List.mem_range.mpr (Nat.succ_lt_succ (List.mem_range.mp hi))
    have := h (i + 1) hmem
    simpa [List.drop_succ_cons] using this

/-- Replacing at the leftmost occurrence: if no occurrence of `pat` starts
inside `a`, the first occurrence of `pat` in `a ++ pat ++ b` is the
distinguished one, and only it is replaced — by the `GetSubstitution`
expansion of the template against that match. -/
theorem replaceFirst_leftmost (pat repl b : List Char) (hne : pat ≠ []) :
    ∀ (a pre : List Char), noEarlierHit a pat b = true →
    replaceFirstAux pat repl pre (a ++ pat ++ b) =
      a ++ getSubstitution pat (pre ++ a) b repl ++ b := by
  intro a
  induction a with
  | nil =>
    intro pre _
    obtain ⟨p, ps, rfl⟩ : ∃ p ps, pat = p :: ps := by
      cases pat with
      | nil => exact absurd rfl hne
      | cons p ps => exact ⟨p, ps, rfl⟩
    simp only [List.nil_append, List.append_nil]
    rw [List.cons_append, replaceFirstAux]
    rw [if_pos (by
      rw [← List.cons_append]
      exact List.isPrefixOf_iff_prefix.mpr (List.prefix_append _ _))]
    rw [← List.cons_append, List.drop_left]
  | cons c a' ih =>
    intro pre h
    obtain ⟨h1, h2⟩ := noEarlierHit_cons h
    simp only [List.cons_append, replaceFirstAux]
    rw [if_neg (by
      intro hc
      simp only [List.append_eq] at hc
      rw [h1] at hc
      exact Bool.false_ne_true hc)]
    simp only [List.append_eq]
    rw [ih (pre ++ [c]) h2]
    simp [List.append_assoc]

/-- A replacement template containing no dollar sign expands to itself. -/
theorem getSubstitution_no_dollar (m bef aft : List Char) :
    ∀ repl : List Char, (∀ c ∈ repl, c ≠ '$') →
    getSubstitution m bef aft repl = repl := by
  intro repl
  induction repl with
  | nil => intro _; rfl
  | cons c rest ih =>
    intro h
    cases rest with
    | nil => rfl
    | cons d r =>
      have hc : c ≠ '$' := h c (by simp)
      simp only [getSubstitution, if_neg hc]
      exact congrArg (c :: ·) (ih fun x hx => h x (by simp [hx]))

theorem data_isEmpty_false {s : String} (h : s ≠ "") : s.data.isEmpty = false := by
  cases hd : s.data with
  | nil => exact absurd (String.ext (hd.trans rfl)) h
  | cons c l => rfl

theorem callWithRetryAux_ok {α : Type} {f : Nat → Outcome α} {i : Nat} {v : α}
    (hf : f i = Outcome.ok v) (r d : Nat) :
    callWithRetryAux f r d i = (Except.ok v, []) := by
  cases r <;> simp [callWithRetryAux, hf]

theorem callWithRetryAux_err_zero {α : Type} {f : Nat → Outcome α} {i : Nat}
    {e : JsError} (hf : f i = Outcome.err e) (d : Nat) :
    callWithRetryAux f 0 d i = (Except.error e, []) := by
  simp [callWithRetryAux, hf]

theorem callWithRetryAux_err_retry {α : Type} {f : Nat → Outcome α} {i : Nat}
    {e : JsError} (hf : f i = Outcome.err e) (hq : isQuotaError e = true)
    (r d : Nat) :
    callWithRetryAux f (r + 1) d i =
      ((callWithRetryAux f r (d * 2) (i + 1)).1,
       d :: (callWithRetryAux f r (d * 2) (i + 1)).2) := by
  simp [callWithRetryAux, hf, hq]

theorem callWithRetryAux_err_noRetry {α : Type} {f : Nat → Outcome α} {i : Nat}
    {e : JsError} (hf : f i = Outcome.err e) (hq : isQuotaError e = false)
    (r d : Nat) :
    callWithRetryAux f (r + 1) d i = (Except.error e, []) := by
  simp [callWithRetryAux, hf, hq]

/-- Attempt indices shift through the recursion. -/
theorem callWithRetryAux_shift {α : Type} (f : Nat → Outcome α) :
    ∀ (r d i : Nat),
    callWithRetryAux f r d (i + 1) = callWithRetryAux (fun j => f (j + 1)) r d i := by
  intro r
  induction r with
  | zero =>
    intro d i
    cases hf : f (i + 1) with
    | ok v =>
      rw [callWithRetryAux_ok hf,
          callWithRetryAux_ok (f := fun j => f (j + 1)) (i := i) hf]
    | err e =>
      rw [callWithRetryAux_err_zero hf,
          callWithRetryAux_err_zero (f := fun j => f (j + 1)) (i := i) hf]
  | succ r ih =>
    intro d i
    cases hf : f (i + 1) with
    | ok v =>
      rw [callWithRetryAux_ok hf,
          callWithRetryAux_ok (f := fun j => f (j + 1)) (i := i) hf]
    | err e =>
      by_cases hq : isQuotaError e = true
      · rw [callWithRetryAux_err_retry hf hq,
            callWithRetryAux_err_retry (f := fun j => f (j + 1)) (i := i) hf hq,
            ih (d * 2) (i + 1)]
      · have hq' : isQuotaError e = false := by
          cases hqe : isQuotaError e
          · rfl
          · exact absurd hqe hq
        rw [callWithRetryAux_err_noRetry hf hq',
            callWithRetryAux_err_noRetry (f := fun j => f (j + 1)) (i := i) hf hq']

/-! ## Claim theorems -/

/-- Claim C2: `callWithRetry` retries exactly the errors its quota test
classifies as rate-limiting (status or numeric code 429, a
`RESOURCE_EXHAUSTED` status, the same fields on a nested error object, or a
message containing "429" or "quota"); on such an error with attempts
remaining it waits the current delay and retries with the delay doubled and
attempts decremented; on a non-retryable error or with attempts exhausted
it propagates the original error unchanged; a 429-shaped double failure
then success yields the success value after delays 2000 ms and 4000 ms, and
a non-retryable error fails with zero delays. -/
theorem c2_callWithRetry_spec :
    (∀ e : JsError, isQuotaError e = true ↔
      (e.status = JsValue.num 429 ∨ e.code = JsValue.num 429 ∨
       e.status = JsValue.str "RESOURCE_EXHAUSTED" ∨
       (∃ n, e.nested = some n ∧
          (n.code = JsValue.num 429 ∨ n.status = JsValue.str "RESOURCE_EXHAUSTED")) ∨
       (∃ m, e.message = some m ∧
          (strIncludes m "429" = true ∨ strIncludes m "quota" = true)))) ∧
    (∀ (α : Type) (f : Nat → Outcome α) (r d : Nat) (e : JsError),
      f 0 = Outcome.err e → isQuotaError e = true →
      callWithRetryAux f (r + 1) d 0 =
        ((callWithRetryAux (fun j => f (j + 1)) r (d * 2) 0).1,
         d :: (callWithRetryAux (fun j => f (j + 1)) r (d * 2) 0).2)) ∧
    (∀ (v : Nat) (e : JsError) (f : Nat → Outcome Nat), isQuotaError e = true →
      f 0 = Outcome.err e → f 1 = Outcome.err e → f 2 = Outcome.ok v →
      callWithRetry f = (Except.ok v, [2000, 4000])) ∧
    (∀ (e : JsError) (f : Nat → Outcome Nat),
      isQuotaError e = false → f 0 = Outcome.err e →
      callWithRetry f = (Except.error e, [])) ∧
    (∀ (e : JsError) (f : Nat → Outcome Nat), isQuotaError e = true →
      f 0 = Outcome.err e → f 1 = Outcome.err e → f 2 = Outcome.err e →
      f 3 = Outcome.err e →
      callWithRetry f = (Except.error e, [2000, 4000, 8000])) := by
  refine ⟨?_, ?_, ?_, ?_, ?_⟩
  · intro e
    cases hn : e.nested <;> cases hm : e.message <;>
      simp [isQuotaError, hn, hm] <;> tauto
  · intro α f r d e hf hq
    rw [callWithRetryAux_err_retry hf hq, callWithRetryAux_shift f r (d * 2) 0]
  · intro v e f hq h0 h1 h2
    have e1 : callWithRetryAux f 2 4000 1 = (Except.ok v, [4000]) := by
      have h := callWithRetryAux_err_retry h1 hq 1 4000
      norm_num at h
      rw [callWithRetryAux_ok h2] at h
      norm_num at h
      exact h
    have h := callWithRetryAux_err_retry h0 hq 2 2000
    norm_num at h
    rw [e1] at h
    norm_num at h
    show callWithRetryAux f 3 2000 0 = _
    exact h
  · intro e f hq hf
    have h := callWithRetryAux_err_noRetry hf hq 2 2000
    norm_num at h
    show callWithRetryAux f 3 2000 0 = _
    exact h
  · intro e f hq h0 h1 h2 h3
    have e2 : callWithRetryAux f 1 8000 2 = (Except.error e, [8000]) := by
      have h := callWithRetryAux_err_retry h2 hq 0 8000
      norm_num at h
      rw [callWithRetryAux_err_zero h3] at h
      norm_num at h
      exact h
    have e1 : callWithRetryAux f 2 4000 1 = (Except.error e, [4000, 8000]) := by
      have h := callWithRetryAux_err_retry h1 hq 1 4000
      norm_num at h
      rw [e2] at h
      norm_num at h
      exact h
    have h := callWithRetryAux_err_retry h0 hq 2 2000
    norm_num at h
    rw [e1] at h
    norm_num at h
    show callWithRetryAux f 3 2000 0 = _
    exact h

/-- Witness for C2 at concrete inputs. -/
theorem c2_callWithRetry_spec_witness :
    callWithRetry
        (fun i => if i < 2
          then Outcome.err { status := JsValue.num 429, code := JsValue.absent,
                             nested := none, message := none }
          else Outcome.ok 7) =
      (Except.ok 7, [2000, 4000]) ∧
    callWithRetry
        (fun _ => Outcome.err (α := Nat)
          { status := JsValue.absent, code := JsValue.absent,
            nested := none, message := some "bad request" }) =
      (Except.error { status := JsValue.absent, code := JsValue.absent,
                      nested := none, message := some "bad request" }, []) :=
  ⟨c2_callWithRetry_spec.2.2.1 7
      { status := JsValue.num 429, code := JsValue.absent,
        nested := none, message := none }
      (fun i => if i < 2
        then Outcome.err { status := JsValue.num 429, code := JsValue.absent,
                           nested := none, message := none }
        else Outcome.ok 7)
      (by decide) (by decide) (by decide) (by decide),
   c2_callWithRetry_spec.2.2.2.1
      { status := JsValue.absent, code := JsValue.absent,
        nested := none, message := some "bad request" }
      _ (by decide) rfl⟩

/-- Claim C6: the effective API key resolves with priority model-specific
key > global default key > provider-specific key, so with all three set the
model-specific key is returned; and when no ModelConfig matches the
feature's configured model id the operation fails with a configuration
error before any session or network activity. -/
theorem c6_router_priority :
    (∀ (m : CustomModel) (st : AppSettings) (k : String),
      m.apiKey = some k → k ≠ "" → getApiKeyForModel m st = k) ∧
    (∀ (m : CustomModel) (st : AppSettings),
      jsTruthy m.apiKey = false → jsTruthy st.api.defaultApiKey = true →
      getApiKeyForModel m st = st.api.defaultApiKey.getD "") ∧
    (∀ (m : CustomModel) (st : AppSettings),
      jsTruthy m.apiKey = false → jsTruthy st.api.defaultApiKey = false →
      m.provider = ApiProvider.GoogleGemini →
      getApiKeyForModel m st = st.api.geminiApiKey) ∧
    (∀ (m : CustomModel) (st : AppSettings),
      jsTruthy m.apiKey = false → jsTruthy st.api.defaultApiKey = false →
      m.provider = ApiProvider.DeepSeek →
      getApiKeyForModel m st = st.api.deepseekApiKey) ∧
    (∀ st : AppSettings,
      getModelById (getModelForFeature st FeatureType.Interview)
          st.api.customModels = none →
      startInterviewSession st =
        Except.error "Model configuration not found for feature: interview") := by
  refine ⟨?_, ?_, ?_, ?_, ?_⟩
  · intro m st k hk hne
    simp [getApiKeyForModel, jsTruthy, hk, hne]
  · intro m st h1 h2
    simp only [getApiKeyForModel]
    rw [h1, h2]
    simp
  · intro m st h1 h2 h3
    simp only [getApiKeyForModel]
    rw [h1, h2, h3]
    simp
  · intro m st h1 h2 h3
    simp only [getApiKeyForModel]
    rw [h1, h2, h3]
    simp
  · intro st h
    simp [startInterviewSession, getModelConfigForFeature, h]

/-- Witness for C6: with a model key, a default key and a provider key all
set the model key wins; a missing model id for the interview feature fails
with the configuration error. -/
theorem c6_router_priority_witness :
    getApiKeyForModel sampleKeyedModel sampleSettings = "modelKey" ∧
    startInterviewSession missingModelSettings =
      Except.error "Model configuration not found for feature: interview" :=
  ⟨c6_router_priority.1 sampleKeyedModel sampleSettings "modelKey" rfl (by decide),
   c6_router_priority.2.2.2.2 missingModelSettings (by decide)⟩

/-- Claim C8: on failure of the primary full-reconstruction call,
`reconstructPrompt` makes exactly one fallback call on the configured
"flash" model (the first custom model whose name contains "flash", else the
predefined `gemini-flash`); if the fallback also fails the original
document is returned unchanged instead of an error; no fallback happens
when the primary call succeeds. -/
theorem c8_reconstruct_fallback :
    (∀ (st : AppSettings) (mc : CustomModel) (cp t : String) (e : JsError),
      getModelConfigForFeature st FeatureType.Rewrite = some mc →
      isOpenAICompatible mc.provider = false →
      reconstructPromptFull st cp (AiCall.err e) (AiCall.ok t) =
        Except.ok (textOr t cp, true)) ∧
    (∀ (st : AppSettings) (mc : CustomModel) (cp : String) (e e2 : JsError),
      getModelConfigForFeature st FeatureType.Rewrite = some mc →
      isOpenAICompatible mc.provider = false →
      reconstructPromptFull st cp (AiCall.err e) (AiCall.err e2) =
        Except.ok (cp, true)) ∧
    (∀ (st : AppSettings) (mc : CustomModel) (cp t : String) (fb : AiCall),
      getModelConfigForFeature st FeatureType.Rewrite = some mc →
      reconstructPromptFull st cp (AiCall.ok t) fb =
        Except.ok (textOr t cp, false)) ∧
    (∀ (st : AppSettings) (m : CustomModel),
      st.api.customModels.find? (fun x => strIncludes x.modelName "flash") = some m →
      fallbackFlashModelId st = m.id) ∧
    (∀ st : AppSettings,
      st.api.customModels.find? (fun x => strIncludes x.modelName "flash") = none →
      fallbackFlashModelId st = "gemini-flash") := by
  refine ⟨?_, ?_, ?_, ?_, ?_⟩
  · intro st mc cp t e hc hp
    simp [reconstructPromptFull, hc, hp]
  · intro st mc cp e e2 hc hp
    simp [reconstructPromptFull, hc, hp]
  · intro st mc cp t fb hc
    cases hp : isOpenAICompatible mc.provider <;>
      simp [reconstructPromptFull, hc, hp]
  · intro st m h
    simp [fallbackFlashModelId, h]
  · intro st h
    simp [fallbackFlashModelId, h]

/-- Witness for C8: with the default rewrite routing (`gemini-pro`), a
failed primary call and a successful fallback give the trimmed fallback
text; a failed fallback returns the original document; no custom flash
model means the fallback id is `gemini-flash`. -/
theorem c8_reconstruct_fallback_witness :
    reconstructPromptFull sampleSettings "orig doc"
        (AiCall.err { status := JsValue.num 429, code := JsValue.absent,
                      nested := none, message := none })
        (AiCall.ok "rewritten") = Except.ok ("rewritten", true) ∧
    reconstructPromptFull sampleSettings "orig doc"
        (AiCall.err { status := JsValue.num 429, code := JsValue.absent,
                      nested := none, message := none })
        (AiCall.err { status := JsValue.num 429, code := JsValue.absent,
                      nested := none, message := none }) =
      Except.ok ("orig doc", true) ∧
    fallbackFlashModelId sampleSettings = "gemini-flash" := by
  refine ⟨?_, ?_, ?_⟩
  · have h := c8_reconstruct_fallback.1 sampleSettings
      { id := "gemini-pro", name := "Gemini Pro (深度推理)",
        provider := ApiProvider.GoogleGemini,
        modelName := "gemini-3-pro-preview", baseUrl := none, apiKey := none }
      "orig doc" "rewritten"
      { status := JsValue.num 429, code := JsValue.absent,
        nested := none, message := none }
      (by decide) (by decide)
    rw [h, show textOr "rewritten" "orig doc" = "rewritten" from by decide]
  · exact c8_reconstruct_fallback.2.1 sampleSettings
      { id := "gemini-pro", name := "Gemini Pro (深度推理)",
        provider := ApiProvider.GoogleGemini,
        modelName := "gemini-3-pro-preview", baseUrl := none, apiKey := none }
      "orig doc" _ _ (by decide) (by decide)
  · exact c8_reconstruct_fallback.2.2.2.2 sampleSettings (by decide)

/-- Claim C9: `classifyPromptSegment` maps the response to a pillar by
case-insensitive substring match against the four pillar names, in the
order Persona, Task, Context, Format; a response matching none of them and
a call that errors both resolve to `Pillar.Other`. -/
theorem c9_classify_fallback :
    (∀ (st : AppSettings) (mc : CustomModel) (e : JsError),
      getModelConfigForFeature st FeatureType.Classify = some mc →
      classifyPromptSegment st (AiCall.err e) = Except.ok Pillar.Other) ∧
    (∀ t : String,
      strIncludes (jsToLower (jsTrim t)) "persona" = false →
      strIncludes (jsToLower (jsTrim t)) "task" = false →
      strIncludes (jsToLower (jsTrim t)) "context" = false →
      strIncludes (jsToLower (jsTrim t)) "format" = false →
      classifyResponseText t = Pillar.Other) ∧
    (∀ t : String,
      strIncludes (jsToLower (jsTrim t)) "persona" = true →
      classifyResponseText t = Pillar.Persona) ∧
    (∀ t : String,
      strIncludes (jsToLower (jsTrim t)) "persona" = false →
      strIncludes (jsToLower (jsTrim t)) "task" = true →
      classifyResponseText t = Pillar.Task) ∧
    (∀ t : String,
      strIncludes (jsToLower (jsTrim t)) "persona" = false →
      strIncludes (jsToLower (jsTrim t)) "task" = false →
      strIncludes (jsToLower (jsTrim t)) "context" = true →
      classifyResponseText t = Pillar.Context) ∧
    (∀ t : String,
      strIncludes (jsToLower (jsTrim t)) "persona" = false →
      strIncludes (jsToLower (jsTrim t)) "task" = false →
      strIncludes (jsToLower (jsTrim t)) "context" = false →
      strIncludes (jsToLower (jsTrim t)) "format" = true →
      classifyResponseText t = Pillar.Format) := by
  have hnorm : ∀ t : String, t ≠ "" →
      classifyResponseText t =
        (if strIncludes (jsToLower (jsTrim t)) "persona" = true then Pillar.Persona
         else if strIncludes (jsToLower (jsTrim t)) "task" = true then Pillar.Task
         else if strIncludes (jsToLower (jsTrim t)) "context" = true then Pillar.Context
         else if strIncludes (jsToLower (jsTrim t)) "format" = true then Pillar.Format
         else Pillar.Other) := by
    intro t ht
    simp [classifyResponseText, ht]
  refine ⟨?_, ?_, ?_, ?_, ?_, ?_⟩
  · intro st mc e hc
    simp [classifyPromptSegment, hc]
  · intro t h1 h2 h3 h4
    by_cases ht : t = ""
    · subst ht; decide
    · rw [hnorm t ht, if_neg (by simp [h1]), if_neg (by simp [h2]),
          if_neg (by simp [h3]), if_neg (by simp [h4])]
  · intro t h1
    by_cases ht : t = ""
    · subst ht; exact absurd h1 (by decide)
    · rw [hnorm t ht, if_pos h1]
  · intro t h1 h2
    by_cases ht : t = ""
    · subst ht; exact absurd h2 (by decide)
    · rw [hnorm t ht, if_neg (by simp [h1]), if_pos h2]
  · intro t h1 h2 h3
    by_cases ht : t = ""
    · subst ht; exact absurd h3 (by decide)
    · rw [hnorm t ht, if_neg (by simp [h1]), if_neg (by simp [h2]), if_pos h3]
  · intro t h1 h2 h3 h4
    by_cases ht : t = ""
    · subst ht; exact absurd h4 (by decide)
    · rw [hnorm t ht, if_neg (by simp [h1]), if_neg (by simp [h2]),
          if_neg (by simp [h3]), if_pos h4]

/-- Witness for C9 at concrete inputs: an erroring call yields Other, an
unmatched response yields Other, and a case-insensitive match yields the
pillar. -/
theorem c9_classify_fallback_witness :
    classifyPromptSegment sampleSettings
        (AiCall.err { status := JsValue.absent, code := JsValue.absent,
                      nested := none, message := none }) =
      Except.ok Pillar.Other ∧
    classifyResponseText "no idea" = Pillar.Other ∧
    classifyResponseText "  PERSONA  " = Pillar.Persona :=
  ⟨c9_classify_fallback.1 sampleSettings
      { id := "gemini-pro", name := "Gemini Pro (深度推理)",
        provider := ApiProvider.GoogleGemini,
        modelName := "gemini-3-pro-preview", baseUrl := none, apiKey := none }
      _ (by decide),
   c9_classify_fallback.2.1 "no idea" (by decide) (by decide) (by decide) (by decide),
   c9_classify_fallback.2.2.1 "  PERSONA  " (by decide)⟩

/-- Claim C5: the interview response handler gives a fenced
code-block-wrapped body the same parsed structure as the unwrapped
equivalent; unparsable text yields the parse-error sentinel
(question = the parse-error message, no options, not a final draft)
instead of an exception; on success options are normalised to at most 3
entries, `isFinalDraft` is coerced to a boolean, and `generatedPrompt` is
passed through. -/
theorem c5_interview_parse :
    (∀ (parse : String → Option InterviewJson) (t : String),
      noBacktickIn t = true →
      parseInterviewResponse parse (wrapJsonFence t) =
        parseInterviewResponse parse t) ∧
    (∀ (parse : String → Option InterviewJson) (t : String),
      parse (jsTrim ⟨stripFences t.data⟩) = none →
      parseInterviewResponse parse t = parseErrorSentinel) ∧
    (∀ (parse : String → Option InterviewJson) (t : String) (j : InterviewJson),
      parse (jsTrim ⟨stripFences t.data⟩) = some j →
      (parseInterviewResponse parse t).options.length ≤ 3 ∧
      (parseInterviewResponse parse t).isFinalDraft = j.isFinalDraft ∧
      (parseInterviewResponse parse t).generatedPrompt = j.generatedPrompt) := by
  refine ⟨?_, ?_, ?_⟩
  · intro parse t h
    simp only [parseInterviewResponse]
    rw [stripFences_wrap t h, stripFences_no_tick t.data (no_tick_of_noBacktickIn h)]
  · intro parse t h
    simp [parseInterviewResponse, h]
  · intro parse t j h
    refine ⟨?_, ?_, ?_⟩ <;> simp [parseInterviewResponse, h]

/-- Witness for C5 at concrete inputs. -/
theorem c5_interview_parse_witness :
    parseInterviewResponse (fun _ => none) (wrapJsonFence "payload") =
      parseInterviewResponse (fun _ => none) "payload" ∧
    parseInterviewResponse (fun _ => none) "garbage" = parseErrorSentinel ∧
    ((parseInterviewResponse
        (fun _ => some { question := some "Q", questionCap := none,
                         options := some ["a", "b", "c", "d"],
                         isFinalDraft := true,
                         generatedPrompt := some "G" }) "x").options.length ≤ 3 ∧
     (parseInterviewResponse
        (fun _ => some { question := some "Q", questionCap := none,
                         options := some ["a", "b", "c", "d"],
                         isFinalDraft := true,
                         generatedPrompt := some "G" }) "x").isFinalDraft = true ∧
     (parseInterviewResponse
        (fun _ => some { question := some "Q", questionCap := none,
                         options := some ["a", "b", "c", "d"],
                         isFinalDraft := true,
                         generatedPrompt := some "G" }) "x").generatedPrompt = some "G") :=
  ⟨c5_interview_parse.1 (fun _ => none) "payload" (by decide),
   c5_interview_parse.2.1 (fun _ => none) "garbage" rfl,
   c5_interview_parse.2.2 _ "x"
     { question := some "Q", questionCap := none,
       options := some ["a", "b", "c", "d"], isFinalDraft := true,
       generatedPrompt := some "G" } rfl⟩

/-- Claim C1 (counterexample): the claim says every AI-mutating operation
invoked while `isProcessing` is Busy leaves the editor state unchanged, but
full reconstruction has no gate: invoked on a Busy state it still rewrites
the document (and resets the flag). -/
theorem c1_gate_counterexample :
    busyScanState.isProcessing = true ∧
    handleGlobalReconstruct (some "q") busyScanState ≠ busyScanState := by
  decide

/-- Claim C1 (amended): deep scan and apply feedback are gated by
`isProcessing` — invoking them while Busy leaves the state unchanged — but
full and partial reconstruction are not gated: they run and mutate the
document regardless of `isProcessing`, resetting the flag to Idle when
done, so the Idle→Busy→Idle serialisation only holds for the gated
operations. -/
theorem c1_processing_gate :
    (∀ (s : EditorState) (r : Option (List Suggestion)),
      s.isProcessing = true → handleDeepScan r s = s) ∧
    (∀ (s : EditorState) (r : Option String),
      s.isProcessing = true → handleApplyFeedback r s = s) ∧
    (∀ (s : EditorState) (t : String),
      (handleGlobalReconstruct (some t) s).prompt = t ∧
      (handleGlobalReconstruct (some t) s).isProcessing = false) ∧
    (∀ (s : EditorState) (a b : Nat) (t : String),
      (handlePartialReconstruct a b (some t) s).prompt =
        ⟨s.prompt.data.take a ++ t.data ++ s.prompt.data.drop b⟩ ∧
      (handlePartialReconstruct a b (some t) s).isProcessing = false) := by
  refine ⟨?_, ?_, ?_, ?_⟩
  · intro s r h
    simp [handleDeepScan, h]
  · intro s r h
    simp [handleApplyFeedback, h]
  · intro s t
    exact ⟨rfl, rfl⟩
  · intro s a b t
    exact ⟨rfl, rfl⟩

/-- Witness for C1 (amended) at a concrete Busy state. -/
theorem c1_processing_gate_witness :
    handleDeepScan (some []) busyReconState = busyReconState ∧
    handleApplyFeedback (some "q") busyTipReconState = busyTipReconState :=
  ⟨c1_processing_gate.1 _ (some []) rfl,
   c1_processing_gate.2.1 _ (some "q") rfl⟩

/-- Claim C3: when the stored deep-scan suggestion list is written, every
entry's `originalText` is an exact substring of the document at that
moment, and returned entries whose `originalText` no longer occurs in the
current document are silently dropped. -/
theorem c3_deepscan_filter :
    (∀ (r : List Suggestion) (s : EditorState) (sg : Suggestion),
      sg ∈ (deepScanFinish r s).suggestions →
      strIncludes (deepScanFinish r s).prompt sg.originalText = true) ∧
    (∀ (r : List Suggestion) (s : EditorState) (sg : Suggestion),
      sg ∈ r → strIncludes s.prompt sg.originalText = false →
      sg ∉ (deepScanFinish r s).suggestions) ∧
    (∀ (r : List Suggestion) (s : EditorState) (sg : Suggestion),
      s.isProcessing = false →
      sg ∈ (handleDeepScan (some r) s).suggestions →
      strIncludes (handleDeepScan (some r) s).prompt sg.originalText = true) := by
  refine ⟨?_, ?_, ?_⟩
  · intro r s sg h
    simp only [deepScanFinish, deepScanFilter, List.mem_filter] at h
    exact h.2
  · intro r s sg hmem hno
    simp only [deepScanFinish, deepScanFilter, List.mem_filter]
    intro h
    rw [hno] at h
    exact Bool.false_ne_true h.2
  · intro r s sg hp h
    simp only [handleDeepScan, hp, Bool.false_eq_true, if_false,
      deepScanFilter, List.mem_filter] at h
    simp only [handleDeepScan, hp, Bool.false_eq_true, if_false]
    exact h.2

/-- Witness for C3: end-to-end scenario C — the returned suggestion's
`originalText` ("helpful") does not occur in the current document, so it
is dropped and the stored list is empty. -/
theorem c3_deepscan_filter_witness :
    ({ id := "s1", originalText := "helpful", suggestedText := "useful",
       reason := "", type := "clarity" } : Suggestion) ∉
      (deepScanFinish
        [{ id := "s1", originalText := "helpful", suggestedText := "useful",
           reason := "", type := "clarity" }]
        { baseState with prompt := "You are an assistant." }).suggestions :=
  c3_deepscan_filter.2.1 _ _ _ (by decide) (by decide)

/-- Claim C4 (counterexample): the claim fails on two points. With an
empty pre-apply document, apply-then-undo does not restore the document
(the `if (lastPromptBeforeApply)` truthiness test treats the snapshot ""
as absent). And a manual edit via `updatePrompt` does not clear the
snapshot when `showUndo` is off (here: cleared by an intervening
reconstruction), so the snapshot survives the manual edit. -/
theorem c4_undo_counterexample :
    (handleUndo (handleApplyFeedback (some "p1") emptyPromptTipState)).prompt ≠
      emptyPromptTipState.prompt ∧
    (updatePrompt "p3" (handleGlobalReconstruct (some "p2")
        (handleApplyFeedback (some "p1")
          p0TipState))).lastPromptBeforeApply ≠ none := by
  decide

/-- Claim C4 (amended): for a non-empty pre-apply document with the apply
gate open, apply-then-undo restores the pre-apply document; a second undo
without a new apply is a no-op; the snapshot is single-level (one optional
value), replaced by the pre-apply document on each apply, cleared by undo
whenever undo acts, and cleared by a manual edit only while `showUndo` is
set. -/
theorem c4_undo_single_level :
    (∀ (s : EditorState) (r : String),
      s.feedback ≠ "" → s.isProcessing = false → s.prompt ≠ "" →
      (handleUndo (handleApplyFeedback (some r) s)).prompt = s.prompt) ∧
    (∀ (s : EditorState) (r : String),
      s.feedback ≠ "" → s.isProcessing = false →
      handleUndo (handleUndo (handleApplyFeedback (some r) s)) =
        handleUndo (handleApplyFeedback (some r) s)) ∧
    (∀ (s : EditorState) (r : String),
      s.feedback ≠ "" → s.isProcessing = false →
      (handleApplyFeedback (some r) s).lastPromptBeforeApply = some s.prompt) ∧
    (∀ (s : EditorState) (t : String),
      s.showUndo = true → (updatePrompt t s).lastPromptBeforeApply = none) ∧
    (∀ s : EditorState,
      (handleUndo s).lastPromptBeforeApply = none ∨ handleUndo s = s) := by
  have happly : ∀ (s : EditorState) (r : String),
      s.feedback ≠ "" → s.isProcessing = false →
      handleApplyFeedback (some r) s =
        { s with lastPromptBeforeApply := some s.prompt, prompt := r,
                 suggestions := [], showUndo := true,
                 isProcessing := false, processingType := none } := by
    intro s r h1 h2
    simp [handleApplyFeedback, h1, h2]
  refine ⟨?_, ?_, ?_, ?_, ?_⟩
  · intro s r h1 h2 h3
    rw [happly s r h1 h2]
    simp [handleUndo, h3]
  · intro s r h1 h2
    rw [happly s r h1 h2]
    by_cases h3 : s.prompt = ""
    · simp [handleUndo, h3]
    · simp [handleUndo, h3]
  · intro s r h1 h2
    rw [happly s r h1 h2]
  · intro s t h
    simp [updatePrompt, h]
  · intro s
    rcases hs : s.lastPromptBeforeApply with _ | p
    · right
      simp [handleUndo, hs]
    · by_cases hp : p = ""
      · right
        simp [handleUndo, hs, hp]
      · left
        simp [handleUndo, hs, hp]

/-- Witness for C4 (amended) at a concrete state. -/
theorem c4_undo_single_level_witness :
    (handleUndo (handleApplyFeedback (some "p1") p0TipState)).prompt = "p0" ∧
    handleUndo (handleUndo (handleApplyFeedback (some "p1") p0TipState)) =
      handleUndo (handleApplyFeedback (some "p1") p0TipState) ∧
    (updatePrompt "x" undoReadyState).lastPromptBeforeApply = none :=
  ⟨c4_undo_single_level.1 _ "p1" (by decide) rfl (by decide),
   c4_undo_single_level.2.1 _ "p1" (by decide) rfl,
   c4_undo_single_level.2.2.2.1 _ "x" rfl⟩

/-- Claim C7 (counterexample): the claim says the `originalText` span is
replaced by `suggestedText`, but `String.prototype.replace` applies
`GetSubstitution` to a string replacement: with `suggestedText` `$&$&` the
program inserts the matched text twice ("abab"), not the literal
`suggestedText`. -/
theorem c7_verbatim_counterexample :
    (applySuggestion dollarAmpSuggestion abAbState).prompt = "abab ab" ∧
    (applySuggestion dollarAmpSuggestion abAbState).prompt ≠ "$&$& ab" := by
  decide

/-- Claim C7 (amended): `applySuggestion` replaces exactly the leftmost
`originalText` span by the `GetSubstitution` expansion of `suggestedText`
(`$$` → `$`, `$&` → the matched text, `$` + backquote → the text before
the match, `$` + quote → the text after it, anything else literal) — in
particular verbatim by `suggestedText` whenever it contains no dollar
sign — and removes the suggestion (by id) from the suggestion set, keeping
every other suggestion; `dismissSuggestion` removes the suggestion without
touching the document. -/
theorem c7_apply_dismiss :
    (∀ (sg : Suggestion) (s : EditorState) (a b : List Char),
      sg.originalText ≠ "" →
      s.prompt.data = a ++ sg.originalText.data ++ b →
      noEarlierHit a sg.originalText.data b = true →
      (applySuggestion sg s).prompt.data =
        a ++ getSubstitution sg.originalText.data a b sg.suggestedText.data ++ b) ∧
    (∀ (sg : Suggestion) (s : EditorState) (a b : List Char),
      sg.originalText ≠ "" →
      (∀ c ∈ sg.suggestedText.data, c ≠ '$') →
      s.prompt.data = a ++ sg.originalText.data ++ b →
      noEarlierHit a sg.originalText.data b = true →
      (applySuggestion sg s).prompt.data = a ++ sg.suggestedText.data ++ b) ∧
    (∀ (sg : Suggestion) (s : EditorState) (x : Suggestion),
      x ∈ (applySuggestion sg s).suggestions → x.id ≠ sg.id) ∧
    (∀ (sg : Suggestion) (s : EditorState) (x : Suggestion),
      x ∈ s.suggestions → x.id ≠ sg.id → x ∈ (applySuggestion sg s).suggestions) ∧
    (∀ (i : String) (s : EditorState),
      (dismissSuggestion i s).prompt = s.prompt) ∧
    (∀ (i : String) (s : EditorState) (x : Suggestion),
      x ∈ (dismissSuggestion i s).suggestions → x.id ≠ i) ∧
    (∀ (i : String) (s : EditorState) (x : Suggestion),
      x ∈ s.suggestions → x.id ≠ i → x ∈ (dismissSuggestion i s).suggestions) := by
  have hgen : ∀ (sg : Suggestion) (s : EditorState) (a b : List Char),
      sg.originalText ≠ "" →
      s.prompt.data = a ++ sg.originalText.data ++ b →
      noEarlierHit a sg.originalText.data b = true →
      (applySuggestion sg s).prompt.data =
        a ++ getSubstitution sg.originalText.data a b sg.suggestedText.data ++ b := by
    intro sg s a b hne hsplit hleft
    have hdata : sg.originalText.data ≠ [] := by
      intro h0
      have := data_isEmpty_false hne
      rw [h0] at this
      exact absurd this (by decide)
    simp only [applySuggestion, jsReplace, data_isEmpty_false hne,
      Bool.false_eq_true, if_false]
    rw [hsplit]
    have := replaceFirst_leftmost sg.originalText.data sg.suggestedText.data b
      hdata a [] hleft
    rw [List.nil_append] at this
    exact this
  refine ⟨hgen, ?_, ?_, ?_, ?_, ?_, ?_⟩
  · intro sg s a b hne hnd hsplit hleft
    rw [hgen sg s a b hne hsplit hleft,
        getSubstitution_no_dollar _ _ _ _ hnd]
  · intro sg s x hx
    simp only [applySuggestion, List.mem_filter, Bool.not_eq_true',
      beq_eq_false_iff_ne, ne_eq] at hx
    exact hx.2
  · intro sg s x hx hne
    simp only [applySuggestion, List.mem_filter, Bool.not_eq_true',
      beq_eq_false_iff_ne, ne_eq]
    exact ⟨hx, hne⟩
  · intro i s
    rfl
  · intro i s x hx
    simp only [dismissSuggestion, List.mem_filter, Bool.not_eq_true',
      beq_eq_false_iff_ne, ne_eq] at hx
    exact hx.2
  · intro i s x hx hne
    simp only [dismissSuggestion, List.mem_filter, Bool.not_eq_true',
      beq_eq_false_iff_ne, ne_eq]
    exact ⟨hx, hne⟩

/-- Witness for C7 at a concrete document and suggestion: a dollar-free
replacement splices verbatim, and the general conjunct applies to the
`$&$&` template; dismissal leaves the document alone. -/
theorem c7_apply_dismiss_witness :
    (applySuggestion
        { id := "s1", originalText := "world", suggestedText := "there",
          reason := "", type := "tone" }
        { baseState with prompt := "hello world" }).prompt.data =
      "hello ".data ++ "there".data ++ [] ∧
    (applySuggestion dollarAmpSuggestion abAbState).prompt.data =
      [] ++ getSubstitution "ab".data [] " ab".data "$&$&".data ++ " ab".data ∧
    (dismissSuggestion "s1"
        { baseState with prompt := "hello world" }).prompt = "hello world" :=
  ⟨c7_apply_dismiss.2.1 _ _ "hello ".data [] (by decide) (by decide) (by decide)
      (by decide),
   c7_apply_dismiss.1 dollarAmpSuggestion abAbState [] " ab".data (by decide)
      (by decide) (by decide),
   c7_apply_dismiss.2.2.2.2.1 "s1" _⟩

/-- Claim C10 (counterexample): the claim says the leftmost occurrence is
replaced by `suggestedText`, but `String.prototype.replace` applies
`GetSubstitution` to a string replacement: with `suggestedText` `$$` the
program inserts a single `$`, not the literal template. -/
theorem c10_leftmost_counterexample :
    (applySuggestion dollarDollarSuggestion abAbState).prompt = "$ ab" ∧
    (applySuggestion dollarDollarSuggestion abAbState).prompt ≠ "$$ ab" := by
  decide

/-- Claim C10 (amended, implicit): when the suggestion's `originalText`
occurs more than once in the document, `applySuggestion` rewrites only the
leftmost occurrence — replacing it by the `GetSubstitution` expansion of
`suggestedText`, which is `suggestedText` itself whenever the template
contains no dollar sign; every later occurrence (inside `b`) and the rest
of the document are unchanged in place. -/
theorem c10_replace_leftmost :
    (∀ (sg : Suggestion) (s : EditorState) (a b : List Char),
      sg.originalText ≠ "" →
      s.prompt.data = a ++ sg.originalText.data ++ b →
      noEarlierHit a sg.originalText.data b = true →
      listContains sg.originalText.data b = true →
      (applySuggestion sg s).prompt.data =
        a ++ getSubstitution sg.originalText.data a b sg.suggestedText.data ++ b) ∧
    (∀ (sg : Suggestion) (s : EditorState) (a b : List Char),
      sg.originalText ≠ "" →
      (∀ c ∈ sg.suggestedText.data, c ≠ '$') →
      s.prompt.data = a ++ sg.originalText.data ++ b →
      noEarlierHit a sg.originalText.data b = true →
      listContains sg.originalText.data b = true →
      (applySuggestion sg s).prompt.data = a ++ sg.suggestedText.data ++ b) := by
  have hgen : ∀ (sg : Suggestion) (s : EditorState) (a b : List Char),
      sg.originalText ≠ "" →
      s.prompt.data = a ++ sg.originalText.data ++ b →
      noEarlierHit a sg.originalText.data b = true →
      (applySuggestion sg s).prompt.data =
        a ++ getSubstitution sg.originalText.data a b sg.suggestedText.data ++ b := by
    intro sg s a b hne hsplit hleft
    have hdata : sg.originalText.data ≠ [] := by
      intro h0
      have := data_isEmpty_false hne
      rw [h0] at this
      exact absurd this (by decide)
    simp only [applySuggestion, jsReplace, data_isEmpty_false hne,
      Bool.false_eq_true, if_false]
    rw [hsplit]
    have := replaceFirst_leftmost sg.originalText.data sg.suggestedText.data b
      hdata a [] hleft
    rw [List.nil_append] at this
    exact this
  refine ⟨fun sg s a b hne hsplit hleft _ => hgen sg s a b hne hsplit hleft, ?_⟩
  intro sg s a b hne hnd hsplit hleft _
  rw [hgen sg s a b hne hsplit hleft, getSubstitution_no_dollar _ _ _ _ hnd]

/-- Witness for C10: in "ab ab" the pattern "ab" occurs twice; only the
first occurrence is rewritten (here by a dollar-free template, so
verbatim) and the second survives in place. -/
theorem c10_replace_leftmost_witness :
    (applySuggestion
        { id := "s1", originalText := "ab", suggestedText := "X",
          reason := "", type := "clarity" }
        abAbState).prompt.data = [] ++ "X".data ++ " ab".data :=
  c10_replace_leftmost.2 _ _ [] " ab".data (by decide) (by decide) (by decide)
    (by decide) (by decide)

end PromptMaster
